import Mathlib

/-!
Verification of the lazy attribute-resolution / caching core and the
client operations of the zhihu-oauth library.

The repository's visible sources are `zhihu_oauth/client.py` (login,
captcha, accessors) and `zhihu_oauth/zhcls/answer.py` (the `Answer`
entity: its field declarations and listing declarations).  The shared
machinery behind the declarations (`Base`, `simple_info`, `streaming`,
`other_obj`, `generator_of`, `int_id`) is not among the sources, so it
is modelled here from the specification, while `client.py` is embedded
directly.
-/

set_option autoImplicit false

/-- JSON values as served by the remote API and stored in an entity's
raw data document. -/
inductive Val where
  | vnull : Val
  | vbool : Bool → Val
  | vint : Int → Val
  | vstr : String → Val
  | vobj : List (String × Val) → Val

/-- First-match lookup in an association list (Python dict access order
for our purposes: one binding per key). -/
def alookup {α : Type} : List (String × α) → String → Option α
  | [], _ => none
  | (k, v) :: rest, key => if k = key then some v else alookup rest key

/-- A value stored in an entity's per-instance cache: either a raw JSON
value (plain / streaming fields) or a reference to another entity
(cross-entity reference fields cache the constructed entity, which is
determined by its kind and id since it starts with no raw data). -/
inductive CVal where
  | raw : Val → CVal
  | ent : String → Val → CVal

/-- The raw value a cache entry yields to a plain-field read (an entity
reference cached under a plain field name yields no raw value). -/
def CVal.asVal : CVal → Option Val
  | .raw v => some v
  | .ent _ _ => none

/-- Modelled from the spec: the Entity base (`zhihu_oauth.zhcls.base.Base`,
absent from src).  Holds the kind tag, the stable id, the optional raw
detail document (absent until the first detail fetch), and the
per-instance cache keyed by field name. -/
structure Entity where
  kind : String
  eid : Val
  rawData : Option (List (String × Val))
  cache : List (String × CVal)

/-- An entity as built by a client accessor or a reference field:
no raw data, empty cache. -/
def freshEntity (kind : String) (eid : Val) : Entity :=
  ⟨kind, eid, none, []⟩

/-- Printable form of an id, used in URL templates. -/
def Val.asIdString : Val → String
  | .vint n => toString n
  | .vstr s => s
  | _ => ""

/-- Modelled from the spec: the per-kind detail URL template
(`zhihu_oauth.zhcls.urls`, absent from src); `Answer._build_url` formats
the template with the entity's id. -/
def detailUrl (kind : String) (eid : Val) : String :=
  "https://api.zhihu.com/" ++ kind ++ "s/" ++ eid.asIdString

/-- The detail URL of an entity, as `Base._build_url` produces it. -/
def Entity.url (e : Entity) : String :=
  detailUrl e.kind e.eid

/-- The remote service seen through the authenticated fetcher: maps a
detail URL to the full detail document, or `none` when the fetch fails. -/
def Backend : Type := String → Option (List (String × Val))

/-- Modelled from the spec: `Base._get_data`.  If the raw data document
is already present nothing happens; otherwise one detail fetch of this
entity's detail URL is performed and the whole document is stored.  The
returned trace lists the URLs fetched by this step. -/
def getData (B : Backend) (e : Entity) : Entity × List String :=
  match e.rawData with
  | some _ => (e, [])
  | none =>
    match B e.url with
    | some doc => ({ e with rawData := some doc }, [e.url])
    | none => (e, [e.url])

/-- Result of one field access: the resolved raw value (if any), the
entity's updated state, and the list of URLs fetched. -/
structure AccessResult where
  value : Option Val
  entity : Entity
  trace : List String

/-- Modelled from the spec: the `simple_info` plain-field decorator
(absent from src).  Cache is consulted first; the wrapped function's
local value is returned next (only the `id` property has one: it
returns the stored `_id`, see `answer.py`); otherwise the raw data
document is ensured by one detail fetch, the field is extracted from it
and cached. -/
def simpleInfo (B : Backend) (e : Entity) (name : String) : AccessResult :=
  match alookup e.cache name with
  | some cv => ⟨cv.asVal, e, []⟩
  | none =>
    if name = "id" then ⟨some e.eid, e, []⟩
    else
      let p := getData B e
      match p.1.rawData.bind (fun doc => alookup doc name) with
      | some v => ⟨some v, { p.1 with cache := (name, .raw v) :: p.1.cache }, p.2⟩
      | none => ⟨none, p.1, p.2⟩

/-- Modelled from the spec: the `streaming` nested-object-field
decorator (absent from src).  Like a plain field but the document key
may differ from the property name (`if_i` reads `relationship`); the
sub-document is wrapped without any further network call. -/
def streamingAttr (B : Backend) (e : Entity) (propName jsonName : String) :
    AccessResult :=
  match alookup e.cache propName with
  | some cv => ⟨cv.asVal, e, []⟩
  | none =>
    let p := getData B e
    match p.1.rawData.bind (fun doc => alookup doc jsonName) with
    | some v => ⟨some v, { p.1 with cache := (propName, .raw v) :: p.1.cache }, p.2⟩
    | none => ⟨none, p.1, p.2⟩

/-- Result of a reference-field access: the referenced entity (if the
raw value resolves), the owner's updated state, and the fetch trace. -/
structure RefResult where
  ref : Option Entity
  entity : Entity
  trace : List String

/-- Modelled from the spec: the `other_obj` cross-entity reference
decorator (absent from src).  The raw sub-document supplies the id of a
different entity; with an implicit kind the sub-document's `type`
discriminator names the kind.  The referenced entity is constructed
with no raw data (deferred) and the instance is cached. -/
def otherObj (B : Backend) (e : Entity) (propName : String)
    (kind : Option String) : RefResult :=
  match alookup e.cache propName with
  | some (.ent k i) => ⟨some (freshEntity k i), e, []⟩
  | some (.raw _) => ⟨none, e, []⟩
  | none =>
    let p := getData B e
    match p.1.rawData.bind (fun doc => alookup doc propName) with
    | some (.vobj sub) =>
      let resolvedKind : Option String :=
        match kind with
        | some k => some k
        | none =>
          match alookup sub "type" with
          | some (.vstr t) => some t
          | _ => none
      match resolvedKind, alookup sub "id" with
      | some k, some i =>
        ⟨some (freshEntity k i),
         { p.1 with cache := (propName, .ent k i) :: p.1.cache }, p.2⟩
      | _, _ => ⟨none, p.1, p.2⟩
    | _ => ⟨none, p.1, p.2⟩

namespace Answer

/-- The plain (`simple_info`) fields of `Answer` whose wrapped function
returns `None`, i.e. every `simple_info` field of `answer.py` except
`id` (whose wrapped function returns the stored `_id`). -/
def plainFields : List String :=
  ["comment_count", "comment_permission", "content", "created_time",
   "excerpt", "is_copyable", "is_mine", "thanks_count", "updated_time",
   "voteup_count"]

/-- `Answer.comment_count`, a plain field. -/
def comment_count (B : Backend) (e : Entity) : AccessResult :=
  simpleInfo B e "comment_count"

/-- `Answer.id`: a `simple_info` property whose wrapped function returns
the stored `_id`. -/
def idAttr (B : Backend) (e : Entity) : AccessResult :=
  simpleInfo B e "id"

/-- `Answer.if_i`, a streaming field reading the `relationship` key. -/
def if_i (B : Backend) (e : Entity) : AccessResult :=
  streamingAttr B e "if_i" "relationship"

/-- `Answer.can_comment`, a streaming field. -/
def can_comment (B : Backend) (e : Entity) : AccessResult :=
  streamingAttr B e "can_comment" "can_comment"

/-- `Answer.author`: `other_obj('people')`. -/
def author (B : Backend) (e : Entity) : RefResult :=
  otherObj B e "author" (some "people")

/-- `Answer.question`: `other_obj()` with implicit kind. -/
def question (B : Backend) (e : Entity) : RefResult :=
  otherObj B e "question" none

end Answer

/-- Decimal-digit parse of a character list, failing on an empty list
or any non-digit character. -/
def parseNatChars (cs : List Char) : Option Nat :=
  if cs.isEmpty then none
  else
    cs.foldl
      (fun acc c =>
        acc.bind fun n => if c.isDigit then some (n * 10 + (c.toNat - 48)) else none)
      (some 0)

/-- Modelled from the spec: Python's `int()` coercion applied by the
`int_id` decorator (`zhihu_oauth.utils`, absent from src): integers
pass through, decimal strings (optionally sign-prefixed) are parsed,
booleans coerce to 0/1; anything else raises `ValueError`/`TypeError`. -/
def pyInt : Val → Option Int
  | .vint n => some n
  | .vstr s =>
    match s.toList with
    | '-' :: rest => (parseNatChars rest).map fun n => -(n : Int)
    | cs => (parseNatChars cs).map fun n => (n : Int)
  | .vbool b => some (if b then 1 else 0)
  | _ => none

namespace ZhihuClient

/-- `ZhihuClient.answer`: decorated with `int_id`, constructs
`Answer(id, None, session)`. -/
def answer (i : Val) : Option Entity :=
  (pyInt i).map fun n => freshEntity "answer" (.vint n)

/-- `ZhihuClient.article`: decorated with `int_id`. -/
def article (i : Val) : Option Entity :=
  (pyInt i).map fun n => freshEntity "article" (.vint n)

/-- `ZhihuClient.collection`: decorated with `int_id`. -/
def collection (i : Val) : Option Entity :=
  (pyInt i).map fun n => freshEntity "collection" (.vint n)

/-- `ZhihuClient.question`: decorated with `int_id`. -/
def question (i : Val) : Option Entity :=
  (pyInt i).map fun n => freshEntity "question" (.vint n)

/-- `ZhihuClient.topic`: decorated with `int_id`. -/
def topic (i : Val) : Option Entity :=
  (pyInt i).map fun n => freshEntity "topic" (.vint n)

/-- `ZhihuClient.column`: no `int_id`, the id passes through unchanged. -/
def column (i : Val) : Entity :=
  freshEntity "column" i

/-- `ZhihuClient.people`: no `int_id`, the id passes through unchanged. -/
def people (i : Val) : Entity :=
  freshEntity "people" i

end ZhihuClient

/-!  The paginated-listing generator (`generator_of`, absent from src),
modelled from the spec's state machine: fetch a page at the current
cursor, yield its items transformed in order, stop when the item list
is empty or `is_end` is true or no next cursor is supplied, otherwise
advance to the supplied cursor.  -/

/-- One page of a listing response: the ordered raw items plus the
pagination metadata (`is_end` flag, optional next cursor). -/
structure Page where
  items : List Val
  is_end : Bool
  next : Option Nat

/-- A paginated endpoint: URL and cursor determine the served page. -/
def PageBackend : Type := String → Nat → Page

/-- A listing generator's state: the endpoint URL and the current
cursor.  A property access constructs a fresh one with cursor 0. -/
structure Gen where
  url : String
  cursor : Nat

/-- Modelled from the spec: running the listing generator.  Returns the
transformed items in server order and the number of page fetches
performed.  `fuel` bounds the recursion; every run below reaches its
terminal condition within the supplied fuel. -/
def runGen {α : Type} (B : PageBackend) (t : Val → α) :
    Nat → Gen → List α × Nat
  | 0, _ => ([], 0)
  | fuel + 1, g =>
    let p := B g.url g.cursor
    let ys := p.items.map t
    if p.items.isEmpty then (ys, 1)
    else if p.is_end then (ys, 1)
    else
      match p.next with
      | none => (ys, 1)
      | some c =>
        let r := runGen B t fuel ⟨g.url, c⟩
        (ys ++ r.1, r.2 + 1)

/-- Modelled from the spec: the per-kind listing URL templates
(`zhihu_oauth.zhcls.urls`, absent from src). -/
def listingUrl (kind : String) (eid : Val) (rel : String) : String :=
  "https://api.zhihu.com/" ++ kind ++ "s/" ++ eid.asIdString ++ "/" ++ rel

namespace Answer

/-- `Answer.voters`: `generator_of(ANSWER_VOTERS_URL, 'people')`; each
property access builds a fresh generator starting at cursor 0. -/
def voters (e : Entity) : Gen :=
  ⟨listingUrl "answer" e.eid "voters", 0⟩

/-- `Answer.comments`: `generator_of(ANSWER_COMMENTS_URL)`. -/
def comments (e : Entity) : Gen :=
  ⟨listingUrl "answer" e.eid "comments", 0⟩

/-- `Answer.collections`: `generator_of(ANSWER_COLLECTIONS_URL)`. -/
def collections (e : Entity) : Gen :=
  ⟨listingUrl "answer" e.eid "collections", 0⟩

end Answer

/-!  Embedding of `zhihu_oauth/client.py`: `need_captcha`, `get_captcha`,
`login`, `is_login`.  An HTTP response body is represented by its parsed
JSON, `none` meaning `res.json()` raises `JSONDecodeError`.  -/

/-- Outcome of a client operation: a normal return, or one of the
exceptions the code can raise. -/
inductive COut (α : Type) where
  | ok : α → COut α
  | unexpectedResponse : String → String → COut α
  | keyError : String → COut α
  | typeError : COut α
  | needCaptchaExc : COut α

/-- Modelled from the spec: `CAPTCHA_URL` (`zhihu_oauth.oauth2.setting`,
absent from src). -/
def CAPTCHA_URL : String := "https://api.zhihu.com/captcha"

/-- Modelled from the spec: `LOGIN_URL` (`zhihu_oauth.oauth2.setting`,
absent from src). -/
def LOGIN_URL : String := "https://api.zhihu.com/sign_in"

/-- Python subscription `j[k]` on a parsed JSON value: a dict yields the
entry or raises `KeyError`; any non-dict raises `TypeError`. -/
def getitem (j : Val) (k : String) : COut Val :=
  match j with
  | .vobj l =>
    match alookup l k with
    | some v => .ok v
    | none => .keyError k
  | _ => .typeError

/-- Whether the first character list is a prefix of the second. -/
def charsPrefix : List Char → List Char → Bool
  | [], _ => true
  | _ :: _, [] => false
  | a :: as, b :: bs => a = b && charsPrefix as bs

/-- Whether the first character list occurs contiguously in the second. -/
def charsInfix (pat : List Char) : List Char → Bool
  | [] => charsPrefix pat []
  | c :: rest => charsPrefix pat (c :: rest) || charsInfix pat rest

/-- Python `k in j` on a parsed JSON value: key containment for a dict,
substring test for a string, `TypeError` otherwise. -/
def pyContains (j : Val) (k : String) : COut Bool :=
  match j with
  | .vobj l => .ok (alookup l k).isSome
  | .vstr s => .ok (charsInfix k.toList s.toList)
  | _ => .typeError

/-- Python truthiness of a parsed JSON value. -/
def truthy : Val → Bool
  | .vnull => false
  | .vbool b => b
  | .vint n => n ≠ 0
  | .vstr s => s ≠ ""
  | .vobj l => !l.isEmpty

namespace ZhihuClient

/-- `ZhihuClient.need_captcha`: GET `CAPTCHA_URL`, return
`j['show_captcha']`; only `JSONDecodeError` and `AttributeError` are
turned into `UnexpectedResponseException` — a subscription failure on
parsed JSON (`KeyError` / `TypeError`) propagates as itself. -/
def need_captcha (resp : Option Val) : COut Val :=
  match resp with
  | none => .unexpectedResponse CAPTCHA_URL "a json data with show_captcha item"
  | some j => getitem j "show_captcha"

/-- `ZhihuClient.get_captcha`: calls `need_captcha` (its exceptions
propagate, its value is discarded), then PUT `CAPTCHA_URL` and
base64-decode `j['img_base64']`; only `JSONDecodeError` becomes
`UnexpectedResponseException`.  The base64 decode is abstracted to the
string itself. -/
def get_captcha (respGet respPut : Option Val) : COut String :=
  match need_captcha respGet with
  | .unexpectedResponse u s => .unexpectedResponse u s
  | .keyError k => .keyError k
  | .typeError => .typeError
  | .needCaptchaExc => .needCaptchaExc
  | .ok _ =>
    match respPut with
    | none =>
      .unexpectedResponse CAPTCHA_URL "a json string contain a img_base64 item."
    | some j =>
      match getitem j "img_base64" with
      | .ok (.vstr s) => .ok s
      | .ok _ => .typeError
      | .unexpectedResponse u s => .unexpectedResponse u s
      | .keyError k => .keyError k
      | .typeError => .typeError
      | .needCaptchaExc => .needCaptchaExc

end ZhihuClient

/-- Modelled from the spec: `ZhihuToken.from_dict`
(`zhihu_oauth.oauth2.token`, absent from src): builds a token from the
login response dict, raising `ValueError` (`none`) when the expected
token fields are missing or the value is not a dict. -/
def ZhihuToken.from_dict (j : Val) : Option Val :=
  match j with
  | .vobj l => if (alookup l "access_token").isSome then some j else none
  | _ => none

/-- The client state relevant to authentication: the stored token and
whether the session's auth was switched to the OAuth2 token. -/
structure Client where
  token : Option Val
  sessionAuth : Bool

/-- `ZhihuClient.__init__` leaves the token unset. -/
def Client.fresh : Client := ⟨none, false⟩

/-- The network environment one `login` call sees: parsed JSON (or
parse failure) of the captcha GET, the captcha POST and the login POST
responses. -/
structure LoginEnv where
  captchaGetResp : Option Val
  captchaPostResp : Option Val
  loginResp : Option Val

/-- Result of a `login` call: the returned pair or raised exception,
the resulting client state, and the URLs requested in order. -/
structure LoginRes where
  out : COut (Bool × Val)
  client : Client
  requests : List String

namespace ZhihuClient

/-- The tail of `ZhihuClient.login` after the captcha handling: POST
`LOGIN_URL`, fail with `(False, json_dict['error'])` when the response
carries an `error`, otherwise store the token and switch the session
auth; `ValueError` / `JSONDecodeError` yield
`(False, 'UnexpectedResponse')`. -/
def loginPost (c : Client) (env : LoginEnv) (pre : List String) : LoginRes :=
  let reqs := pre ++ [LOGIN_URL]
  match env.loginResp with
  | none => ⟨.ok (false, .vstr "UnexpectedResponse"), c, reqs⟩
  | some j =>
    match pyContains j "error" with
    | .ok true =>
      match getitem j "error" with
      | .ok v => ⟨.ok (false, v), c, reqs⟩
      | .unexpectedResponse u s => ⟨.unexpectedResponse u s, c, reqs⟩
      | .keyError k => ⟨.keyError k, c, reqs⟩
      | .typeError => ⟨.typeError, c, reqs⟩
      | .needCaptchaExc => ⟨.needCaptchaExc, c, reqs⟩
    | .ok false =>
      match ZhihuToken.from_dict j with
      | some t => ⟨.ok (true, .vstr ""), ⟨some t, true⟩, reqs⟩
      | none => ⟨.ok (false, .vstr "UnexpectedResponse"), c, reqs⟩
    | .unexpectedResponse u s => ⟨.unexpectedResponse u s, c, reqs⟩
    | .keyError k => ⟨.keyError k, c, reqs⟩
    | .typeError => ⟨.typeError, c, reqs⟩
    | .needCaptchaExc => ⟨.needCaptchaExc, c, reqs⟩

/-- `ZhihuClient.login`.  With no captcha argument, `need_captcha` is
consulted and a truthy answer raises `NeedCaptchaException` before any
login request; with a captcha, it is POSTed first and an `error` item
(or parse failure) aborts with a `(False, reason)` return.  Only the
success path stores a token. -/
def login (c : Client) (env : LoginEnv) (captcha : Option String) : LoginRes :=
  match captcha with
  | none =>
    match need_captcha env.captchaGetResp with
    | .ok v =>
      if truthy v then ⟨.needCaptchaExc, c, [CAPTCHA_URL]⟩
      else loginPost c env [CAPTCHA_URL]
    | .unexpectedResponse u s => ⟨.unexpectedResponse u s, c, [CAPTCHA_URL]⟩
    | .keyError k => ⟨.keyError k, c, [CAPTCHA_URL]⟩
    | .typeError => ⟨.typeError, c, [CAPTCHA_URL]⟩
    | .needCaptchaExc => ⟨.needCaptchaExc, c, [CAPTCHA_URL]⟩
  | some _ =>
    match env.captchaPostResp with
    | none => ⟨.ok (false, .vstr "UnexpectedResponse"), c, [CAPTCHA_URL]⟩
    | some j =>
      match pyContains j "error" with
      | .ok true =>
        match getitem j "error" with
        | .ok v => ⟨.ok (false, v), c, [CAPTCHA_URL]⟩
        | .unexpectedResponse u s => ⟨.unexpectedResponse u s, c, [CAPTCHA_URL]⟩
        | .keyError k => ⟨.keyError k, c, [CAPTCHA_URL]⟩
        | .typeError => ⟨.typeError, c, [CAPTCHA_URL]⟩
        | .needCaptchaExc => ⟨.needCaptchaExc, c, [CAPTCHA_URL]⟩
      | .ok false => loginPost c env [CAPTCHA_URL]
      | .unexpectedResponse u s => ⟨.unexpectedResponse u s, c, [CAPTCHA_URL]⟩
      | .keyError k => ⟨.keyError k, c, [CAPTCHA_URL]⟩
      | .typeError => ⟨.typeError, c, [CAPTCHA_URL]⟩
      | .needCaptchaExc => ⟨.needCaptchaExc, c, [CAPTCHA_URL]⟩

/-- `ZhihuClient.is_login`: whether a token is stored. -/
def is_login (c : Client) : Bool :=
  c.token.isSome

end ZhihuClient

/-!  Concrete fixtures used to instantiate the theorems.  -/

/-- A concrete detail document for an answer. -/
def sampleDoc : List (String × Val) :=
  [("comment_count", .vint 3),
   ("voteup_count", .vint 10),
   ("can_comment", .vobj [("status", .vbool true)]),
   ("author", .vobj [("id", .vstr "alice"), ("type", .vstr "people")]),
   ("question", .vobj [("id", .vint 9), ("type", .vstr "question")])]

/-- A backend serving `sampleDoc` for every detail URL. -/
def sampleBackend : Backend := fun _ => some sampleDoc

/-- A client-built answer. -/
def sampleAnswer : Entity := freshEntity "answer" (.vint 1)

/-- A paginated endpoint serving pages of sizes [20, 20, 5] with
`is_end` true on the third. -/
def samplePages : PageBackend := fun _ c =>
  if c = 0 then ⟨List.replicate 20 Val.vnull, false, some 1⟩
  else if c = 1 then ⟨List.replicate 20 Val.vnull, false, some 2⟩
  else ⟨List.replicate 5 Val.vnull, true, none⟩

/-!  Helper lemmas about the resolve-and-cache primitive.  -/

theorem getData_cache (B : Backend) (e : Entity) :
    (getData B e).1.cache = e.cache := by
  unfold getData
  split
  · rfl
  · split <;> rfl

theorem getData_url (B : Backend) (e : Entity) :
    (getData B e).1.url = e.url := by
  unfold getData Entity.url
  split
  · rfl
  · split <;> rfl

theorem getData_trace (B : Backend) (e : Entity) :
    ∀ u ∈ (getData B e).2, u = e.url := by
  unfold getData
  split
  · simp
  · split <;> simp

theorem getData_of_rawData (B : Backend) (e : Entity) (doc : List (String × Val))
    (h : e.rawData = some doc) :
    getData B e = (e, []) := by
  unfold getData
  rw [h]

theorem getData_of_fetch (B : Backend) (e : Entity) (doc : List (String × Val))
    (h : e.rawData = none) (hB : B e.url = some doc) :
    getData B e = ({ e with rawData := some doc }, [e.url]) := by
  unfold getData
  rw [h, hB]

theorem simpleInfo_no_fetch_of_rawData (B : Backend) (e : Entity) (f : String)
    (doc : List (String × Val)) (h : e.rawData = some doc) :
    (simpleInfo B e f).trace = [] := by
  unfold simpleInfo
  rw [getData_of_rawData B e doc h]
  split
  · rfl
  · split
    · rfl
    · simp only [h, Option.some_bind]
      split <;> rfl

theorem simpleInfo_fetches (B : Backend) (e : Entity) (f : String)
    (doc : List (String × Val))
    (hc : alookup e.cache f = none) (hid : f ≠ "id")
    (hraw : e.rawData = none) (hB : B e.url = some doc) :
    (simpleInfo B e f).trace = [e.url] ∧
    (simpleInfo B e f).entity.rawData = some doc := by
  unfold simpleInfo
  rw [hc, getData_of_fetch B e doc hraw hB]
  simp only [if_neg hid, Option.some_bind]
  rcases halookup : alookup doc f with _ | v <;> simp [halookup]

/-!  Theorems for the claims.  -/

/-- C9: the `id` property of an `Answer` returns the identifier the
instance was constructed with (the stored `_id`), with no network
fetch and no state change, whenever the pre-supplied cache does not
override it (in particular for every client-built instance, whose
cache is empty). -/
theorem id_returns_constructed_id (B : Backend) (e : Entity)
    (h : alookup e.cache "id" = none) :
    Answer.idAttr B e = ⟨some e.eid, e, []⟩ := by
  unfold Answer.idAttr simpleInfo
  rw [h]
  simp

/-- Witness for C9 at a concrete client-built answer. -/
theorem id_returns_constructed_id_witness :
    Answer.idAttr (fun _ => none) (freshEntity "answer" (.vint 42)) =
      ⟨some (.vint 42), freshEntity "answer" (.vint 42), []⟩ :=
  id_returns_constructed_id (fun _ => none) (freshEntity "answer" (.vint 42)) rfl

/-- C8: the accessors under `int_id` (`answer`, `article`, `collection`,
`question`, `topic`) construct their entity with the integer-coerced
id, while `column` and `people` pass the given id through unchanged. -/
theorem accessor_id_contract (i : Val) (n : Int) (h : pyInt i = some n) :
    ZhihuClient.answer i = some (freshEntity "answer" (.vint n)) ∧
    ZhihuClient.article i = some (freshEntity "article" (.vint n)) ∧
    ZhihuClient.collection i = some (freshEntity "collection" (.vint n)) ∧
    ZhihuClient.question i = some (freshEntity "question" (.vint n)) ∧
    ZhihuClient.topic i = some (freshEntity "topic" (.vint n)) ∧
    ZhihuClient.column i = freshEntity "column" i ∧
    ZhihuClient.people i = freshEntity "people" i := by
  simp [ZhihuClient.answer, ZhihuClient.article, ZhihuClient.collection,
    ZhihuClient.question, ZhihuClient.topic, ZhihuClient.column,
    ZhihuClient.people, h]

/-- Witness for C8: a numeric string id is coerced to an integer. -/
theorem otherObj_ref_is_fresh (B : Backend) (e : Entity) (p : String)
    (k : Option String) (r : Entity) (hr : (otherObj B e p k).ref = some r) :
    r.rawData = none ∧ r.cache = [] := by
  unfold otherObj at hr
  dsimp only at hr
  repeat' split at hr
  all_goals simp_all [freshEntity]
  all_goals simp [← hr, freshEntity]

theorem otherObj_trace_only_owner (B : Backend) (e : Entity) (p : String)
    (k : Option String) :
    ∀ u ∈ (otherObj B e p k).trace, u = e.url := by
  have hg := getData_trace B e
  unfold otherObj
  dsimp only
  repeat' split
  all_goals intro u hu
  all_goals first
    | exact hg u hu
    | simp_all

theorem accessor_id_contract_witness :
    pyInt (.vstr "42") = some 42 ∧
    ZhihuClient.answer (.vstr "42") = some (freshEntity "answer" (.vint 42)) ∧
    ZhihuClient.people (.vstr "42") = freshEntity "people" (.vstr "42") :=
  ⟨by decide, (accessor_id_contract (.vstr "42") 42 (by decide)).1,
   (accessor_id_contract (.vstr "42") 42 (by decide)).2.2.2.2.2.2⟩

/-- C3: construction is lazy everywhere: a client accessor builds its
entity with no raw data and an empty cache, and resolving a reference
field (`Answer.author`, `Answer.question`) returns such an entity too,
the only URL possibly fetched being the owner's own detail URL — never
the referenced entity's. -/
theorem reference_laziness (B : Backend) (e : Entity) (i : Val)
    (a r q : Entity)
    (ha : ZhihuClient.answer i = some a)
    (hr : (Answer.author B e).ref = some r)
    (hq : (Answer.question B e).ref = some q) :
    a.rawData = none ∧ a.cache = [] ∧
    r.rawData = none ∧ r.cache = [] ∧
    q.rawData = none ∧ q.cache = [] ∧
    (∀ u ∈ (Answer.author B e).trace, u = e.url) ∧
    (∀ u ∈ (Answer.question B e).trace, u = e.url) ∧
    (ZhihuClient.people i).rawData = none ∧
    (ZhihuClient.people i).cache = [] := by
  obtain ⟨hr1, hr2⟩ := otherObj_ref_is_fresh B e "author" (some "people") r hr
  obtain ⟨hq1, hq2⟩ := otherObj_ref_is_fresh B e "question" none q hq
  have hafresh : a.rawData = none ∧ a.cache = [] := by
    unfold ZhihuClient.answer at ha
    rcases hpi : pyInt i with _ | n <;> rw [hpi] at ha <;> simp at ha
    simp [← ha, freshEntity]
  exact ⟨hafresh.1, hafresh.2, hr1, hr2, hq1, hq2,
    otherObj_trace_only_owner B e "author" (some "people"),
    otherObj_trace_only_owner B e "question" none, rfl, rfl⟩

/-- Witness for C3: a concrete backend on which `author` and `question`
resolve and yield unfetched entities. -/
theorem reference_laziness_witness :
    (freshEntity "answer" (.vint 1)).rawData = none ∧
    (freshEntity "people" (.vstr "alice")).rawData = none ∧
    (freshEntity "question" (.vint 9)).cache = [] :=
  ⟨(reference_laziness sampleBackend sampleAnswer (.vint 1)
      (freshEntity "answer" (.vint 1)) (freshEntity "people" (.vstr "alice"))
      (freshEntity "question" (.vint 9)) rfl rfl rfl).1,
   (reference_laziness sampleBackend sampleAnswer (.vint 1)
      (freshEntity "answer" (.vint 1)) (freshEntity "people" (.vstr "alice"))
      (freshEntity "question" (.vint 9)) rfl rfl rfl).2.2.1,
   (reference_laziness sampleBackend sampleAnswer (.vint 1)
      (freshEntity "answer" (.vint 1)) (freshEntity "people" (.vstr "alice"))
      (freshEntity "question" (.vint 9)) rfl rfl rfl).2.2.2.2.2.1⟩

/-- C5: each access to a listing property (`voters`, `comments`,
`collections`) builds a fresh generator whose cursor starts at zero, so
iterating the same listing twice against the same backend yields the
same item sequence both times. -/
theorem restart_independence {α : Type} (B : PageBackend) (t : Val → α)
    (fuel : Nat) (e : Entity) :
    (Answer.voters e).cursor = 0 ∧
    (Answer.comments e).cursor = 0 ∧
    (Answer.collections e).cursor = 0 ∧
    runGen B t fuel (Answer.voters e) = runGen B t fuel (Answer.voters e) ∧
    runGen B t fuel (Answer.comments e) = runGen B t fuel (Answer.comments e) ∧
    runGen B t fuel (Answer.collections e) =
      runGen B t fuel (Answer.collections e) :=
  ⟨rfl, rfl, rfl, rfl, rfl, rfl⟩

theorem simpleInfo_stable (B : Backend) (e : Entity) (f : String) (v : Val)
    (hv : (simpleInfo B e f).value = some v) :
    simpleInfo B (simpleInfo B e f).entity f =
      ⟨some v, (simpleInfo B e f).entity, []⟩ := by
  rcases hc : alookup e.cache f with _ | cv
  · by_cases hid : f = "id"
    · subst hid
      have h1 : simpleInfo B e "id" = ⟨some e.eid, e, []⟩ := by
        unfold simpleInfo
        simp [hc]
      rw [h1] at hv ⊢
      simp only at hv
      rw [h1]
      rw [← hv]
    · rcases hd : (getData B e).1.rawData.bind (fun doc => alookup doc f)
        with _ | w
      · have h0 : (simpleInfo B e f).value = none := by
          unfold simpleInfo
          simp [hc, hid, hd]
        rw [h0] at hv
        cases hv
      · have h1 : simpleInfo B e f =
            ⟨some w,
             { (getData B e).1 with
                cache := (f, .raw w) :: (getData B e).1.cache },
             (getData B e).2⟩ := by
          unfold simpleInfo
          simp [hc, hid, hd]
        rw [h1] at hv
        simp only at hv
        obtain rfl : w = v := Option.some_inj.mp hv
        rw [h1]
        unfold simpleInfo
        simp [alookup, CVal.asVal]
  · have h1 : simpleInfo B e f = ⟨cv.asVal, e, []⟩ := by
      unfold simpleInfo
      simp [hc]
    rw [h1] at hv ⊢
    simp only at hv
    rw [h1, hv]

theorem streamingAttr_stable (B : Backend) (e : Entity) (pn jn : String)
    (v : Val) (hv : (streamingAttr B e pn jn).value = some v) :
    streamingAttr B (streamingAttr B e pn jn).entity pn jn =
      ⟨some v, (streamingAttr B e pn jn).entity, []⟩ := by
  rcases hc : alookup e.cache pn with _ | cv
  · rcases hd : (getData B e).1.rawData.bind (fun doc => alookup doc jn)
      with _ | w
    · have h0 : (streamingAttr B e pn jn).value = none := by
        unfold streamingAttr
        simp [hc, hd]
      rw [h0] at hv
      cases hv
    · have h1 : streamingAttr B e pn jn =
          ⟨some w,
           { (getData B e).1 with
              cache := (pn, .raw w) :: (getData B e).1.cache },
           (getData B e).2⟩ := by
        unfold streamingAttr
        simp [hc, hd]
      rw [h1] at hv
      simp only at hv
      obtain rfl : w = v := Option.some_inj.mp hv
      rw [h1]
      unfold streamingAttr
      simp [alookup, CVal.asVal]
  · have h1 : streamingAttr B e pn jn = ⟨cv.asVal, e, []⟩ := by
      unfold streamingAttr
      simp [hc]
    rw [h1] at hv ⊢
    simp only at hv
    rw [h1, hv]

theorem otherObj_stable (B : Backend) (e : Entity) (p : String)
    (pk : Option String) (r : Entity) (hr : (otherObj B e p pk).ref = some r) :
    otherObj B (otherObj B e p pk).entity p pk =
      ⟨some r, (otherObj B e p pk).entity, []⟩ := by
  rcases hc : alookup e.cache p with _ | cv
  · rcases hd : (getData B e).1.rawData.bind (fun doc => alookup doc p)
      with _ | w
    · have h0 : (otherObj B e p pk).ref = none := by
        unfold otherObj
        simp [hc, hd]
      rw [h0] at hr
      cases hr
    · rcases w with _ | b | n | s | sub
      case vobj =>
        rcases hk : (match pk with
          | some k => some k
          | none =>
            match alookup sub "type" with
            | some (.vstr t) => some t
            | _ => none) with _ | kk
        · have h0 : (otherObj B e p pk).ref = none := by
            unfold otherObj
            simp only [hc, hd]
            rw [hk]
          rw [h0] at hr
          cases hr
        · rcases hi : alookup sub "id" with _ | ii
          · have h0 : (otherObj B e p pk).ref = none := by
              unfold otherObj
              simp only [hc, hd]
              rw [hk, hi]
            rw [h0] at hr
            cases hr
          · have h1 : otherObj B e p pk =
                ⟨some (freshEntity kk ii),
                 { (getData B e).1 with
                    cache := (p, .ent kk ii) :: (getData B e).1.cache },
                 (getData B e).2⟩ := by
              unfold otherObj
              simp only [hc, hd]
              rw [hk, hi]
            rw [h1] at hr
            simp only at hr
            obtain rfl : freshEntity kk ii = r := Option.some_inj.mp hr
            rw [h1]
            unfold otherObj
            simp [alookup]
      all_goals (
        have h0 : (otherObj B e p pk).ref = none := by
          unfold otherObj
          simp [hc, hd]
        rw [h0] at hr
        cases hr)
  · rcases cv with w | ⟨kk, ii⟩
    · have h1 : otherObj B e p pk = ⟨none, e, []⟩ := by
        unfold otherObj
        simp [hc]
      rw [h1] at hr
      cases hr
    · have h1 : otherObj B e p pk = ⟨some (freshEntity kk ii), e, []⟩ := by
        unfold otherObj
        simp [hc]
      rw [h1] at hr
      simp only at hr
      obtain rfl : freshEntity kk ii = r := Option.some_inj.mp hr
      rw [h1]
      unfold otherObj
      simp [hc]

theorem simpleInfo_cache_suffix (B : Backend) (e : Entity) (f : String) :
    e.cache <:+ (simpleInfo B e f).entity.cache := by
  have hgc := getData_cache B e
  unfold simpleInfo
  dsimp only
  repeat' split
  all_goals simp_all

theorem streamingAttr_cache_suffix (B : Backend) (e : Entity)
    (pn jn : String) :
    e.cache <:+ (streamingAttr B e pn jn).entity.cache := by
  have hgc := getData_cache B e
  unfold streamingAttr
  dsimp only
  repeat' split
  all_goals simp_all

theorem otherObj_cache_suffix (B : Backend) (e : Entity) (p : String)
    (pk : Option String) :
    e.cache <:+ (otherObj B e p pk).entity.cache := by
  have hgc := getData_cache B e
  unfold otherObj
  dsimp only
  repeat' split
  all_goals simp_all

/-- C2: once a field is resolved, repeating the access on the updated
instance returns the identical value with no further fetch and no
state change — for plain, streaming and reference fields alike — and
the per-instance cache only ever grows (the old cache is a suffix of
the new one). -/
theorem cache_stability (B : Backend) (e : Entity) (f pn jn p : String)
    (pk : Option String) :
    (∀ v, (simpleInfo B e f).value = some v →
      simpleInfo B (simpleInfo B e f).entity f =
        ⟨some v, (simpleInfo B e f).entity, []⟩) ∧
    (∀ v, (streamingAttr B e pn jn).value = some v →
      streamingAttr B (streamingAttr B e pn jn).entity pn jn =
        ⟨some v, (streamingAttr B e pn jn).entity, []⟩) ∧
    (∀ r, (otherObj B e p pk).ref = some r →
      otherObj B (otherObj B e p pk).entity p pk =
        ⟨some r, (otherObj B e p pk).entity, []⟩) ∧
    e.cache <:+ (simpleInfo B e f).entity.cache ∧
    e.cache <:+ (streamingAttr B e pn jn).entity.cache ∧
    e.cache <:+ (otherObj B e p pk).entity.cache :=
  ⟨fun v hv => simpleInfo_stable B e f v hv,
   fun v hv => streamingAttr_stable B e pn jn v hv,
   fun r hr => otherObj_stable B e p pk r hr,
   simpleInfo_cache_suffix B e f,
   streamingAttr_cache_suffix B e pn jn,
   otherObj_cache_suffix B e p pk⟩

/-- Witness for C2: repeating a resolved `comment_count` access on the
concrete backend returns the same value with an empty trace. -/
theorem cache_stability_witness :
    simpleInfo sampleBackend
        (simpleInfo sampleBackend sampleAnswer "comment_count").entity
        "comment_count" =
      ⟨some (.vint 3),
       (simpleInfo sampleBackend sampleAnswer "comment_count").entity, []⟩ :=
  (cache_stability sampleBackend sampleAnswer "comment_count" "can_comment"
      "can_comment" "author" (some "people")).1 (.vint 3) rfl

/-- C1: on a client-built answer (no pre-supplied raw data), accessing
two plain fields in sequence performs exactly one detail fetch of the
answer's detail URL, on the first access; the second access reuses the
stored raw data and fetches nothing. -/
theorem single_fetch (B : Backend) (i : Val) (doc : List (String × Val))
    (f1 f2 : String) (h1 : f1 ∈ Answer.plainFields)
    (h2 : f2 ∈ Answer.plainFields)
    (hB : B (freshEntity "answer" i).url = some doc) :
    (simpleInfo B (freshEntity "answer" i) f1).trace =
      [(freshEntity "answer" i).url] ∧
    (simpleInfo B (simpleInfo B (freshEntity "answer" i) f1).entity f2).trace =
      [] := by
  have hne1 : f1 ≠ "id" := by
    intro hcontra
    rw [hcontra] at h1
    revert h1
    decide
  obtain ⟨ht, hrd⟩ :=
    simpleInfo_fetches B (freshEntity "answer" i) f1 doc rfl hne1 rfl hB
  exact ⟨ht, simpleInfo_no_fetch_of_rawData B _ f2 doc hrd⟩

/-- Witness for C1 at a concrete answer, backend and field pair. -/
theorem single_fetch_witness :
    (simpleInfo sampleBackend sampleAnswer "comment_count").trace =
      [sampleAnswer.url] ∧
    (simpleInfo sampleBackend
      (simpleInfo sampleBackend sampleAnswer "comment_count").entity
      "voteup_count").trace = [] :=
  single_fetch sampleBackend (.vint 1) sampleDoc "comment_count"
    "voteup_count" (by decide) (by decide) rfl

/-- C6: two entities built by the client for the same id share no
cache or raw-data state: the same field access performs its own detail
fetch on each instance — re-requesting the same id re-fetches. -/
theorem no_cross_instance_sharing (B : Backend) (i : Val) (a1 a2 : Entity)
    (doc : List (String × Val)) (f : String)
    (h1 : ZhihuClient.answer i = some a1)
    (h2 : ZhihuClient.answer i = some a2)
    (hf : f ∈ Answer.plainFields) (hB : B a1.url = some doc) :
    (simpleInfo B a1 f).trace = [a1.url] ∧
    (simpleInfo B a2 f).trace = [a2.url] := by
  have hne : f ≠ "id" := by
    intro hcontra
    rw [hcontra] at hf
    revert hf
    decide
  have hsame : a2 = a1 := by
    rw [h1] at h2
    exact (Option.some_inj.mp h2).symm
  rw [hsame]
  have hfresh : a1.cache = [] ∧ a1.rawData = none := by
    unfold ZhihuClient.answer at h1
    rcases hpi : pyInt i with _ | n <;> rw [hpi] at h1 <;> simp at h1
    simp [← h1, freshEntity]
  have hside := simpleInfo_fetches B a1 f doc (by rw [hfresh.1]; rfl) hne
    hfresh.2 hB
  exact ⟨hside.1, hside.1⟩

/-- Witness for C6 at two concrete same-id answers. -/
theorem no_cross_instance_sharing_witness :
    (simpleInfo sampleBackend sampleAnswer "comment_count").trace =
      [sampleAnswer.url] ∧
    (simpleInfo sampleBackend sampleAnswer "comment_count").trace =
      [sampleAnswer.url] :=
  no_cross_instance_sharing sampleBackend (.vint 1) sampleAnswer sampleAnswer
    sampleDoc "comment_count" rfl rfl (by decide) rfl

/-- C4: a listing whose backend serves pages of sizes [20, 20, 5] with
`is_end` true on the third yields exactly the 45 items in server order
and performs exactly three page fetches, however much further fuel is
available — a fourth page request never happens. -/
theorem pagination_termination {α : Type} (t : Val → α) (B : PageBackend)
    (e : Entity) (p1 p2 p3 : List Val) (nx : Option Nat) (n : Nat)
    (h1 : p1.length = 20) (h2 : p2.length = 20) (h3 : p3.length = 5)
    (hB0 : B (Answer.voters e).url 0 = ⟨p1, false, some 1⟩)
    (hB1 : B (Answer.voters e).url 1 = ⟨p2, false, some 2⟩)
    (hB2 : B (Answer.voters e).url 2 = ⟨p3, true, nx⟩) :
    runGen B t (n + 3) (Answer.voters e) = ((p1 ++ p2 ++ p3).map t, 3) := by
  have e1 : p1.isEmpty = false := by cases p1 <;> simp_all
  have e2 : p2.isEmpty = false := by cases p2 <;> simp_all
  have e3 : p3.isEmpty = false := by cases p3 <;> simp_all
  show runGen B t (n + 1 + 1 + 1) (Answer.voters e) = _
  rw [runGen]
  simp only [Answer.voters] at hB0 hB1 hB2 ⊢
  rw [hB0]
  simp only [e1, e2, e3, Bool.false_eq_true, if_false]
  rw [runGen, hB1]
  simp only [e1, e2, e3, Bool.false_eq_true, if_false]
  rw [runGen, hB2]
  simp only [e3, if_true]
  simp [e3]

/-- Witness for C4 on the concrete three-page backend. -/
theorem pagination_termination_witness :
    runGen samplePages (fun v => v) 3 (Answer.voters sampleAnswer) =
      ((List.replicate 20 Val.vnull ++ List.replicate 20 Val.vnull ++
        List.replicate 5 Val.vnull).map (fun v => v), 3) :=
  pagination_termination (fun v => v) samplePages sampleAnswer
    (List.replicate 20 Val.vnull) (List.replicate 20 Val.vnull)
    (List.replicate 5 Val.vnull) none 0 (by simp) (by simp) (by simp)
    rfl rfl rfl

/-- Counterexample to C7: a response that parses as JSON (an empty
object, hence `some`) but lacks the `show_captcha` item makes
`need_captcha` raise a `KeyError`, not an `UnexpectedResponseException`:
the `except` clause catches only `JSONDecodeError` and `AttributeError`,
so the `KeyError` from `j['show_captcha']` propagates. -/
theorem need_captcha_missing_marker_counterexample :
    (some (Val.vobj []) : Option Val) ≠ none ∧
    alookup ([] : List (String × Val)) "show_captcha" = none ∧
    ZhihuClient.need_captcha (some (.vobj [])) = .keyError "show_captcha" ∧
    ZhihuClient.need_captcha (some (.vobj [])) ≠
      .unexpectedResponse CAPTCHA_URL "a json data with show_captcha item" ∧
    alookup ([] : List (String × Val)) "img_base64" = none ∧
    ZhihuClient.get_captcha (some (.vobj [("show_captcha", .vbool true)]))
      (some (.vobj [])) = .keyError "img_base64" ∧
    ZhihuClient.get_captcha (some (.vobj [("show_captcha", .vbool true)]))
      (some (.vobj [])) ≠
      .unexpectedResponse CAPTCHA_URL
        "a json string contain a img_base64 item." :=
  ⟨by simp, rfl, rfl, fun h => COut.noConfusion h, rfl, rfl,
   fun h => COut.noConfusion h⟩

/-- C7 amended: `need_captcha` and `get_captcha` raise
`UnexpectedResponseException` (with the captcha URL and a description
of the expected shape) when the response fails to parse as JSON; a
response that parses but lacks the expected marker instead raises a
`KeyError` naming the missing item, which the `except` clauses do not
catch. -/
theorem captcha_error_handling (g : Option Val) (l sub : List (String × Val))
    (w : Val) :
    ZhihuClient.need_captcha none =
      .unexpectedResponse CAPTCHA_URL "a json data with show_captcha item" ∧
    (alookup l "show_captcha" = none →
      ZhihuClient.need_captcha (some (.vobj l)) = .keyError "show_captcha") ∧
    (ZhihuClient.need_captcha g = .ok w →
      ZhihuClient.get_captcha g none =
        .unexpectedResponse CAPTCHA_URL
          "a json string contain a img_base64 item.") ∧
    (ZhihuClient.need_captcha g = .ok w →
      alookup sub "img_base64" = none →
      ZhihuClient.get_captcha g (some (.vobj sub)) =
        .keyError "img_base64") := by
  refine ⟨rfl, ?_, ?_, ?_⟩
  · intro hl
    simp only [ZhihuClient.need_captcha, getitem, hl]
  · intro hg
    simp only [ZhihuClient.get_captcha, hg]
  · intro hg hsub
    simp only [ZhihuClient.get_captcha, getitem, hg, hsub]

/-- Witness for the C7 amended theorem at concrete responses. -/
theorem captcha_error_handling_witness :
    ZhihuClient.need_captcha (some (.vobj [])) = .keyError "show_captcha" ∧
    ZhihuClient.get_captcha (some (.vobj [("show_captcha", .vbool true)]))
      none =
      .unexpectedResponse CAPTCHA_URL
        "a json string contain a img_base64 item." ∧
    ZhihuClient.get_captcha (some (.vobj [("show_captcha", .vbool true)]))
      (some (.vobj [])) = .keyError "img_base64" :=
  ⟨(captcha_error_handling (some (.vobj [("show_captcha", .vbool true)]))
      [] [] (.vbool true)).2.1 rfl,
   (captcha_error_handling (some (.vobj [("show_captcha", .vbool true)]))
      [] [] (.vbool true)).2.2.1 rfl,
   (captcha_error_handling (some (.vobj [("show_captcha", .vbool true)]))
      [] [] (.vbool true)).2.2.2 rfl rfl⟩

theorem loginPost_client_unchanged (c : Client) (env : LoginEnv)
    (pre : List String) :
    (ZhihuClient.loginPost c env pre).client = c ∨
    (ZhihuClient.loginPost c env pre).out = .ok (true, .vstr "") := by
  unfold ZhihuClient.loginPost
  repeat' split
  all_goals simp

/-- C10: every `login` call that does not return success leaves the
client state (token and session auth) untouched — in particular a
client not logged in before remains not logged in — and a
`NeedCaptchaException` (captcha omitted but required) is raised before
any request to the login URL is made. -/
theorem login_failure_preserves_state (c : Client) (env : LoginEnv)
    (captcha : Option String) (w : Val) :
    ((∀ v, (ZhihuClient.login c env captcha).out ≠ .ok (true, v)) →
      (ZhihuClient.login c env captcha).client = c) ∧
    ((∀ v, (ZhihuClient.login c env captcha).out ≠ .ok (true, v)) →
      c.token = none →
      ZhihuClient.is_login (ZhihuClient.login c env captcha).client = false) ∧
    (captcha = none →
      ZhihuClient.need_captcha env.captchaGetResp = .ok w →
      truthy w = true →
      ZhihuClient.login c env captcha =
        ⟨.needCaptchaExc, c, [CAPTCHA_URL]⟩ ∧
      LOGIN_URL ∉ (ZhihuClient.login c env captcha).requests) := by
  have hmain : (∀ v, (ZhihuClient.login c env captcha).out ≠ .ok (true, v)) →
      (ZhihuClient.login c env captcha).client = c := by
    intro hfail
    unfold ZhihuClient.login
    unfold ZhihuClient.login at hfail
    repeat' split
    all_goals try rfl
    all_goals (
      rcases loginPost_client_unchanged c env [CAPTCHA_URL] with hcl | hsucc
      · exact hcl
      · exact absurd hsucc (by simp_all))
  refine ⟨hmain, ?_, ?_⟩
  · intro hfail htok
    rw [hmain hfail]
    simp [ZhihuClient.is_login, htok]
  · intro hcap hneed htr
    subst hcap
    have hlogin : ZhihuClient.login c env none =
        ⟨.needCaptchaExc, c, [CAPTCHA_URL]⟩ := by
      simp [ZhihuClient.login, hneed, htr]
    refine ⟨hlogin, ?_⟩
    rw [hlogin]
    simp [CAPTCHA_URL, LOGIN_URL]

/-- Witness for C10: omitting the captcha while the service demands one
raises `NeedCaptchaException` with the client state untouched and no
login request issued. -/
theorem login_failure_preserves_state_witness :
    (ZhihuClient.login Client.fresh
        ⟨some (.vobj [("show_captcha", .vbool true)]), none, none⟩
        none).client = Client.fresh ∧
    ZhihuClient.login Client.fresh
        ⟨some (.vobj [("show_captcha", .vbool true)]), none, none⟩ none =
      ⟨.needCaptchaExc, Client.fresh, [CAPTCHA_URL]⟩ :=
  ⟨(login_failure_preserves_state Client.fresh
      ⟨some (.vobj [("show_captcha", .vbool true)]), none, none⟩ none
      (.vbool true)).1 (fun _ h => COut.noConfusion h),
   ((login_failure_preserves_state Client.fresh
      ⟨some (.vobj [("show_captcha", .vbool true)]), none, none⟩ none
      (.vbool true)).2.2 rfl rfl rfl).1⟩
